import Mathlib

/-
Verification of the `strip_recipes` package (`strip_recipes/__init__.py`).

The `RecipeFile` class writes a recipe for the LSPE/Strip tester software
directly to a text sink: `create_file` opens the sink and writes a header
ending with the `TESTSET:` marker, and each builder method checks its
arguments (Python `assert` statements) and then writes exactly one
instruction line and bumps `instruction_idx` (except `rf_cw`, which writes
its line but does not bump the counter).

The embedding below models the open file handle as an optional list of the
chunks written so far (each Python `write` call appends one chunk), and each
builder as a function returning the new state together with an optional
error.  The checks appear in the source order of the Python `assert`
statements; `isinstance` checks are absorbed by the Lean types of the
arguments.  Numbers are modelled as rationals.
-/

namespace StripRecipes

/-- Does the character list begin with the given pattern? -/
def leadsWith : List Char → List Char → Bool
  | _, [] => true
  | [], _ :: _ => false
  | c :: cs, p :: ps => c = p && leadsWith cs ps

/-- Does the character list contain the given pattern as a contiguous run? -/
def hasSub : List Char → List Char → Bool
  | [], pat => leadsWith [] pat
  | c :: cs, pat => leadsWith (c :: cs) pat || hasSub cs pat

/-- Does the string `s` contain `pat` as a contiguous substring? -/
def strContains (s pat : String) : Bool :=
  hasSub s.data pat.data

/-- Python `str.upper` on the builder's target strings, realized as a
character-wise ASCII upper-casing (the targets it is compared against are
all ASCII). -/
def pyUpper (s : String) : String :=
  ⟨s.data.map Char.toUpper⟩

/-- Rendering of a numeric builder argument, as Python `str` produces it for
the integer-valued calls exercised by the claims (`str(5) = "5"`); a
non-integral rational is rendered as `num/den`, a placeholder that no theorem
relies on (Python would print a decimal expansion there). -/
def pyNumStr (q : ℚ) : String :=
  if q.den = 1 then toString q.num else toString q.num ++ "/" ++ toString q.den

/-- The two ways a builder call can fail: the `assert self.filehandle`
check guarding every method (message `ERRMSG_FILEHANDLE_NOT_SET`), and the
argument-validation asserts. -/
inductive RecipeError where
  | fileHandleNotSet
  | invalidArgument
  deriving DecidableEq

/-- State of a `RecipeFile` object: `file_name` from the constructor,
`instruction_idx` and `filehandle` both unset until `create_file` runs.
The file handle holds the list of chunks written so far. -/
structure RecipeFile where
  file_name : String
  instruction_idx : Option Int
  filehandle : Option (List String)
  deriving DecidableEq

/-- The constructor `RecipeFile.__init__`: both `instruction_idx` and
`filehandle` start as `None`. -/
def RecipeFile.init (file_name : String) : RecipeFile :=
  { file_name := file_name, instruction_idx := none, filehandle := none }

/-- One `self.filehandle.write(...)` call: appends one chunk to the open
handle (every builder performs it only after the handle check passed). -/
def RecipeFile.write (s : RecipeFile) (chunk : String) : RecipeFile :=
  { s with filehandle := s.filehandle.map (fun ch => ch ++ [chunk]) }

/-- One `self.instruction_idx += 1` statement (only reached with the
counter set, since the handle check passed and `create_file` sets both). -/
def RecipeFile.incr (s : RecipeFile) : RecipeFile :=
  { s with instruction_idx := s.instruction_idx.map (fun n => n + 1) }

/-- The header `create_file` writes: a leading blank line, the timestamp
line, a blank line, then the `TESTSET:` marker line. -/
def headerText (now : String) : String :=
  "\n# Recipe generated on " ++ now ++ "\n\nTESTSET:\n"

/-- `RecipeFile.create_file`: opens the sink (empty), sets the counter to 0
and writes the header.  The formatted timestamp is taken as an argument,
standing for `datetime.utcnow().strftime("%Y-%m-%d %H:%M:%S UTC")`. -/
def RecipeFile.create_file (s : RecipeFile) (now : String) : RecipeFile :=
  let s1 : RecipeFile :=
    { s with filehandle := some [], instruction_idx := some 0 }
  s1.write (headerText now)

/-- `RecipeFile.load_settings`: checks the handle, that `file_name` is
non-empty and that `pol_id` lies in `[0, 48]`, then writes one
`LoadSettings` line and bumps the counter. -/
def RecipeFile.load_settings (s : RecipeFile) (file_name : String)
    (pol_id : Int) : RecipeFile × Option RecipeError :=
  if s.filehandle.isNone then (s, some .fileHandleNotSet)
  else if file_name = "" then (s, some .invalidArgument)
  else if ¬ (pol_id ≥ 0 ∧ pol_id ≤ 48) then (s, some .invalidArgument)
  else
    ((s.write ("LoadSettings\t" ++ file_name ++ ", " ++ toString pol_id
        ++ ";\n")).incr, none)

/-- `RecipeFile.sbs`: checks the handle, then writes one `Sbs` line whose
single argument is the token `ON` for `True` and `OFF` for `False`. -/
def RecipeFile.sbs (s : RecipeFile) (status : Bool) :
    RecipeFile × Option RecipeError :=
  if s.filehandle.isNone then (s, some .fileHandleNotSet)
  else
    ((s.write ("Sbs\t" ++ (if status then "ON" else "OFF") ++ ";\n")).incr,
      none)

/-- `RecipeFile.sbs_on`: delegates to `sbs(True)`. -/
def RecipeFile.sbs_on (s : RecipeFile) : RecipeFile × Option RecipeError :=
  s.sbs true

/-- `RecipeFile.sbs_off`: delegates to `sbs(False)`. -/
def RecipeFile.sbs_off (s : RecipeFile) : RecipeFile × Option RecipeError :=
  s.sbs false

/-- `RecipeFile.record_start`: checks the handle and that `name` is
non-empty, then writes one `RecordStart` line. -/
def RecipeFile.record_start (s : RecipeFile) (name : String) :
    RecipeFile × Option RecipeError :=
  if s.filehandle.isNone then (s, some .fileHandleNotSet)
  else if name = "" then (s, some .invalidArgument)
  else ((s.write ("RecordStart\t" ++ name ++ ";\n")).incr, none)

/-- `RecipeFile.record_stop`: checks the handle, then writes the literal
line `RecordStop;` (no tab, no space before the semicolon). -/
def RecipeFile.record_stop (s : RecipeFile) :
    RecipeFile × Option RecipeError :=
  if s.filehandle.isNone then (s, some .fileHandleNotSet)
  else ((s.write "RecordStop;\n").incr, none)

/-- `RecipeFile.bias_set`: checks the handle, then writes one `BiasSet`
line (the only argument checks are `isinstance`, absorbed by the types). -/
def RecipeFile.bias_set (s : RecipeFile) (target : String) (value : ℚ) :
    RecipeFile × Option RecipeError :=
  if s.filehandle.isNone then (s, some .fileHandleNotSet)
  else
    ((s.write ("BiasSet\t" ++ target ++ ", " ++ pyNumStr value ++ ";\n")).incr,
      none)

/-- `RecipeFile.pid_set`: checks the handle, that the upper-cased target is
one of `LA`, `LB`, `LCROSS`, `LPOL`, and that the temperature is positive,
then writes one `PidSet` line. -/
def RecipeFile.pid_set (s : RecipeFile) (target : String)
    (temperature : ℚ) : RecipeFile × Option RecipeError :=
  if s.filehandle.isNone then (s, some .fileHandleNotSet)
  else if ¬ pyUpper target ∈ (["LA", "LB", "LCROSS", "LPOL"] : List String)
    then (s, some .invalidArgument)
  else if ¬ temperature > 0 then (s, some .invalidArgument)
  else
    ((s.write ("PidSet\t" ++ target ++ ", " ++ pyNumStr temperature
        ++ ";\n")).incr, none)

/-- `RecipeFile.rf_start_sweep`: checks the handle and, in source order,
`fmin > 0`, `step > 0`, `dwell > 0`, `fmin < fmax`, `step < fmax - fmin`,
then writes one `RfStartSweep` line. -/
def RecipeFile.rf_start_sweep (s : RecipeFile)
    (fmin fmax step dwell power : ℚ) : RecipeFile × Option RecipeError :=
  if s.filehandle.isNone then (s, some .fileHandleNotSet)
  else if ¬ fmin > 0 then (s, some .invalidArgument)
  else if ¬ step > 0 then (s, some .invalidArgument)
  else if ¬ dwell > 0 then (s, some .invalidArgument)
  else if ¬ fmin < fmax then (s, some .invalidArgument)
  else if ¬ step < fmax - fmin then (s, some .invalidArgument)
  else
    ((s.write ("RfStartSweep\t" ++ pyNumStr fmin ++ ", " ++ pyNumStr fmax
        ++ ", " ++ pyNumStr step ++ ", " ++ pyNumStr dwell ++ ", "
        ++ pyNumStr power ++ ";\n")).incr, none)

/-- `RecipeFile.rf_cw`: checks the handle and `freq > 0`, then writes one
`RfCw` line.  Unlike every other builder, it does not touch
`instruction_idx`. -/
def RecipeFile.rf_cw (s : RecipeFile) (status : Bool) (freq power : ℚ) :
    RecipeFile × Option RecipeError :=
  if s.filehandle.isNone then (s, some .fileHandleNotSet)
  else if ¬ freq > 0 then (s, some .invalidArgument)
  else
    (s.write ("RfCw\t" ++ (if status then "ON" else "OFF") ++ ", "
      ++ pyNumStr freq ++ ", " ++ pyNumStr power ++ ";\n"), none)

/-- `RecipeFile.wait`: checks the handle and `time >= 0`, then writes one
`Wait` line and bumps the counter. -/
def RecipeFile.wait (s : RecipeFile) (time : ℚ) :
    RecipeFile × Option RecipeError :=
  if s.filehandle.isNone then (s, some .fileHandleNotSet)
  else if ¬ time ≥ 0 then (s, some .invalidArgument)
  else ((s.write ("Wait\t" ++ pyNumStr time ++ ";\n")).incr, none)

/-- One builder call, with its arguments (the nine builder methods of
`RecipeFile`; `sbs_on` and `sbs_off` are mere delegations to `sbs`). -/
inductive Call where
  | load_settings (file_name : String) (pol_id : Int)
  | sbs (status : Bool)
  | record_start (name : String)
  | record_stop
  | bias_set (target : String) (value : ℚ)
  | pid_set (target : String) (temperature : ℚ)
  | rf_start_sweep (fmin fmax step dwell power : ℚ)
  | rf_cw (status : Bool) (freq power : ℚ)
  | wait (time : ℚ)
  deriving DecidableEq

/-- Dispatch one builder call on a state. -/
def runCall (s : RecipeFile) : Call → RecipeFile × Option RecipeError
  | .load_settings fn pid => s.load_settings fn pid
  | .sbs b => s.sbs b
  | .record_start n => s.record_start n
  | .record_stop => s.record_stop
  | .bias_set t v => s.bias_set t v
  | .pid_set t temp => s.pid_set t temp
  | .rf_start_sweep a b c d e => s.rf_start_sweep a b c d e
  | .rf_cw b f p => s.rf_cw b f p
  | .wait t => s.wait t

/-- Is the call an `rf_cw` call? -/
def Call.isRfCw : Call → Bool
  | .rf_cw _ _ _ => true
  | _ => false

/-- The single line a successful builder call writes, exactly as the Python
format strings produce it. -/
def lineOf : Call → String
  | .load_settings fn pid =>
      "LoadSettings\t" ++ fn ++ ", " ++ toString pid ++ ";\n"
  | .sbs b => "Sbs\t" ++ (if b then "ON" else "OFF") ++ ";\n"
  | .record_start n => "RecordStart\t" ++ n ++ ";\n"
  | .record_stop => "RecordStop;\n"
  | .bias_set t v => "BiasSet\t" ++ t ++ ", " ++ pyNumStr v ++ ";\n"
  | .pid_set t temp => "PidSet\t" ++ t ++ ", " ++ pyNumStr temp ++ ";\n"
  | .rf_start_sweep a b c d e =>
      "RfStartSweep\t" ++ pyNumStr a ++ ", " ++ pyNumStr b ++ ", "
        ++ pyNumStr c ++ ", " ++ pyNumStr d ++ ", " ++ pyNumStr e ++ ";\n"
  | .rf_cw b f p =>
      "RfCw\t" ++ (if b then "ON" else "OFF") ++ ", " ++ pyNumStr f
        ++ ", " ++ pyNumStr p ++ ";\n"
  | .wait t => "Wait\t" ++ pyNumStr t ++ ";\n"

/-- Run a list of builder calls, succeeding only if every call succeeds
(an uncaught Python exception would abort the script at the first
failure). -/
def runOk (s : RecipeFile) : List Call → Option RecipeFile
  | [] => some s
  | c :: cs =>
    match runCall s c with
    | (s1, none) => runOk s1 cs
    | (_, some _) => none

/-- Concatenation of a list of written chunks. -/
def concatAll : List String → String
  | [] => ""
  | a :: rest => a ++ concatAll rest

/-- The full text written to the sink so far: the concatenation of the
chunks passed to `write`, in order. -/
def RecipeFile.output (s : RecipeFile) : String :=
  concatAll (s.filehandle.getD [])

/-- A freshly created recipe state used by concrete instantiations. -/
abbrev sampleState : RecipeFile :=
  (RecipeFile.init "recipe.txt").create_file "2020-01-01 00:00:00 UTC"

/-
The repository's tests (`src/strip_recipes/tests/__init__.py`), its root
`test.py` and the example scripts all build a `RecipeFile()` with no file
name and serialize it through a `write_to_file(sink, ...)` method.  That
method is not part of `src/strip_recipes/__init__.py`; only its callers
and tests are in the tree.  The definitions below therefore model that
missing serializer from the spec alone: its serialization algorithm
(section 4.2) and its output grammar (section 6).
-/

/-- The keyword of each operation, per the spec's builder table. -/
def kindName : Call → String
  | .load_settings _ _ => "LoadSettings"
  | .sbs _ => "Sbs"
  | .record_start _ => "RecordStart"
  | .record_stop => "RecordStop"
  | .bias_set _ _ => "BiasSet"
  | .pid_set _ _ => "PidSet"
  | .rf_start_sweep _ _ _ _ _ => "RfStartSweep"
  | .rf_cw _ _ _ => "RfCw"
  | .wait _ => "Wait"

/-- The display arguments of each operation, per the spec's builder table
(boolean-derived arguments are stored as the tokens `ON` / `OFF`). -/
def specArgs : Call → List String
  | .load_settings fn pid => [fn, toString pid]
  | .sbs b => [if b then "ON" else "OFF"]
  | .record_start n => [n]
  | .record_stop => []
  | .bias_set t v => [t, pyNumStr v]
  | .pid_set t temp => [t, pyNumStr temp]
  | .rf_start_sweep a b c d e =>
      [pyNumStr a, pyNumStr b, pyNumStr c, pyNumStr d, pyNumStr e]
  | .rf_cw b f p => [(if b then "ON" else "OFF"), pyNumStr f, pyNumStr p]
  | .wait t => [pyNumStr t]

/-- Arguments joined by comma-space, as the spec's serialization step 6
describes. -/
def joinArgs : List String → String
  | [] => ""
  | [a] => a
  | a :: rest => a ++ ", " ++ joinArgs rest

/-- Modelled from the spec: one serialized operation line of the missing
`write_to_file`, the kind followed by a single space, the arguments joined
by comma-space, and a terminating semicolon (spec section 4.2 step 6). -/
def specLine (c : Call) : String :=
  kindName c ++ " " ++ joinArgs (specArgs c) ++ ";"

/-- The spec's `waitSeconds`: the sum of the arguments of the `Wait`
operations in the log, `0` when there are none. -/
def waitSum : List Call → ℚ
  | [] => 0
  | .wait t :: cs => t + waitSum cs
  | _ :: cs => waitSum cs

/-- Modelled from the spec: the missing `write_to_file` serializer, as the
list of non-blank lines it produces (the blank separator lines of the
grammar in spec section 6 are omitted from this line list).  Steps follow
spec section 4.2: the three header lines with the timestamp, the number of
operations and the total wait duration; then, exactly when a non-empty
comment was supplied, the delimited comment block `# BEGIN_COMMENT`, the
comment text, `# END_COMMENT` (step 4), immediately after the header and
before the marker; then the literal marker line `TESTSET:`; then one line
per operation in log order (step 6). -/
def write_to_file_lines (ts : String) (ops : List Call)
    (comment : String) : List String :=
  ["# generation_time = \"" ++ ts ++ "\"",
   "# num_of_operations = " ++ toString ops.length,
   "# wait_duration_sec = " ++ pyNumStr (waitSum ops)]
  ++ (if comment = "" then []
      else ["# BEGIN_COMMENT", comment, "# END_COMMENT"])
  ++ ["TESTSET:"]
  ++ ops.map specLine

lemma runCall_error_eq (s : RecipeFile) (c : Call) (s' : RecipeFile)
    (e : RecipeError) (h : runCall s c = (s', some e)) : s' = s := by
  cases c <;>
    simp only [runCall, RecipeFile.load_settings, RecipeFile.sbs,
      RecipeFile.record_start, RecipeFile.record_stop, RecipeFile.bias_set,
      RecipeFile.pid_set, RecipeFile.rf_start_sweep, RecipeFile.rf_cw,
      RecipeFile.wait] at h <;>
    repeat' split at h
  all_goals injection h with h1 h2
  all_goals first
    | exact Option.noConfusion h2
    | exact h1.symm

lemma runCall_ok_spec (s : RecipeFile) (c : Call) (s' : RecipeFile)
    (h : runCall s c = (s', none)) :
    s'.file_name = s.file_name ∧
    s'.instruction_idx =
      (if c.isRfCw then s.instruction_idx
       else s.instruction_idx.map (fun n => n + 1)) ∧
    ∀ ch : List String, s.filehandle = some ch →
      s'.filehandle = some (ch ++ [lineOf c]) := by
  cases c <;>
    simp only [runCall, RecipeFile.load_settings, RecipeFile.sbs,
      RecipeFile.record_start, RecipeFile.record_stop, RecipeFile.bias_set,
      RecipeFile.pid_set, RecipeFile.rf_start_sweep, RecipeFile.rf_cw,
      RecipeFile.wait] at h <;>
    repeat' split at h
  all_goals injection h with h1 h2
  all_goals first
    | exact Option.noConfusion h2
    | (subst h1
       refine ⟨rfl, ?_, fun ch hch => ?_⟩ <;>
         simp_all [RecipeFile.write, RecipeFile.incr, lineOf, Call.isRfCw])

lemma runOk_spec (cs : List Call) : ∀ (s s' : RecipeFile)
    (ch : List String), s.filehandle = some ch → runOk s cs = some s' →
    s'.filehandle = some (ch ++ cs.map lineOf) ∧
    s'.instruction_idx =
      s.instruction_idx.map
        (fun n => n + (cs.countP (fun c => ! c.isRfCw) : ℤ)) ∧
    s'.file_name = s.file_name := by
  induction cs with
  | nil =>
    intro s s' ch hch h
    simp only [runOk] at h
    cases h
    refine ⟨by simpa using hch, ?_, rfl⟩
    cases s.instruction_idx <;> simp
  | cons c cs ih =>
    intro s s' ch hch h
    simp only [runOk] at h
    cases hc : runCall s c with
    | mk s1 r =>
      rw [hc] at h
      cases r with
      | some e => simp at h
      | none =>
        simp only at h
        obtain ⟨hn, hidx, hfh⟩ := runCall_ok_spec s c s1 hc
        obtain ⟨fh', idx', n'⟩ := ih s1 s' (ch ++ [lineOf c]) (hfh ch hch) h
        refine ⟨by simpa [List.append_assoc] using fh', ?_, by rw [n', hn]⟩
        rw [idx', hidx]
        by_cases hrf : c.isRfCw
        · simp only [hrf, if_pos, List.countP_cons, Call.isRfCw] at *
          cases s.instruction_idx <;> simp_all
        · simp only [hrf, if_neg, not_false_iff, List.countP_cons] at *
          cases s.instruction_idx with
          | none => simp
          | some n =>
            simp_all
            ring

lemma create_file_filehandle (file_name ts : String) :
    ((RecipeFile.init file_name).create_file ts).filehandle =
      some [headerText ts] := by
  simp [RecipeFile.init, RecipeFile.create_file, RecipeFile.write]

lemma create_file_idx (file_name ts : String) :
    ((RecipeFile.init file_name).create_file ts).instruction_idx = some 0 := by
  simp [RecipeFile.init, RecipeFile.create_file, RecipeFile.write]

/-- C2: a builder call whose argument validation fails raises its error
synchronously at that call and returns with the recipe state — the written
output and the instruction counter — exactly as it was before the call. -/
theorem failing_call_leaves_state_unchanged (s : RecipeFile) (c : Call)
    (s' : RecipeFile) (e : RecipeError) (h : runCall s c = (s', some e)) :
    s' = s ∧ s'.output = s.output ∧
      s'.instruction_idx = s.instruction_idx := by
  have hs := runCall_error_eq s c s' e h
  subst hs
  exact ⟨rfl, rfl, rfl⟩

/-- Witness for C2: `pid_set("LZ", 10)` on a freshly created recipe fails
and the state is exactly the prior state. -/
theorem failing_call_leaves_state_unchanged_app :
    (runCall sampleState (.pid_set "LZ" 10)).1 = sampleState :=
  (failing_call_leaves_state_unchanged sampleState (.pid_set "LZ" 10)
    (runCall sampleState (.pid_set "LZ" 10)).1 .invalidArgument
    (by decide)).1

/-- C9: every builder method, invoked on a freshly constructed
`RecipeFile` whose handle was never set by `create_file`, fails with the
file-handle assert and writes nothing. -/
theorem builder_requires_create_file (file_name : String) (c : Call) :
    runCall (RecipeFile.init file_name) c =
      (RecipeFile.init file_name, some .fileHandleNotSet) := by
  cases c <;>
    simp [runCall, RecipeFile.init, RecipeFile.load_settings, RecipeFile.sbs,
      RecipeFile.record_start, RecipeFile.record_stop, RecipeFile.bias_set,
      RecipeFile.pid_set, RecipeFile.rf_start_sweep, RecipeFile.rf_cw,
      RecipeFile.wait]

/-- C3: after `create_file`, a sequence of successful builder calls leaves
the sink holding the header chunk (which ends with the `TESTSET:` marker
line) followed by exactly one operation line per call, in call order. -/
theorem output_lines_in_call_order (file_name ts : String) (cs : List Call)
    (s' : RecipeFile)
    (h : runOk ((RecipeFile.init file_name).create_file ts) cs = some s') :
    s'.filehandle = some (headerText ts :: cs.map lineOf) ∧
    s'.output = headerText ts ++ concatAll (cs.map lineOf) := by
  obtain ⟨fh, -, -⟩ :=
    runOk_spec cs _ s' [headerText ts] (create_file_filehandle file_name ts) h
  refine ⟨by simpa using fh, ?_⟩
  have fh' : s'.filehandle = some (headerText ts :: cs.map lineOf) := by
    simpa using fh
  simp [RecipeFile.output, fh', concatAll]

/-- Witness for C3: a concrete successful run appends one line per call in
order after the header. -/
theorem output_lines_in_call_order_app :
    ((runOk ((RecipeFile.init "recipe.txt").create_file
          "2020-01-01 00:00:00 UTC")
        [Call.sbs true, Call.wait 9, Call.sbs false]).getD
      ((RecipeFile.init "recipe.txt").create_file
        "2020-01-01 00:00:00 UTC")).filehandle =
      some (headerText "2020-01-01 00:00:00 UTC" ::
        List.map lineOf [Call.sbs true, Call.wait 9, Call.sbs false]) :=
  (output_lines_in_call_order "recipe.txt" "2020-01-01 00:00:00 UTC"
    [Call.sbs true, Call.wait 9, Call.sbs false] _ (by decide)).1

/-- C10: every successful builder call other than `rf_cw` bumps
`instruction_idx` by exactly one; a successful `rf_cw` writes its `RfCw`
line but leaves the counter untouched, so a successful run containing an
`rf_cw` ends with the counter strictly below the number of emitted
operation lines. -/
theorem rf_cw_skips_counter :
    (∀ (s : RecipeFile) (c : Call) (s' : RecipeFile),
        runCall s c = (s', none) → c.isRfCw = false →
        s'.instruction_idx = s.instruction_idx.map (fun n => n + 1)) ∧
    (∀ (s : RecipeFile) (c : Call) (s' : RecipeFile),
        runCall s c = (s', none) → c.isRfCw = true →
        s'.instruction_idx = s.instruction_idx ∧
        ∀ ch : List String, s.filehandle = some ch →
          s'.filehandle = some (ch ++ [lineOf c])) ∧
    (∀ (file_name ts : String) (cs : List Call) (s' : RecipeFile),
        runOk ((RecipeFile.init file_name).create_file ts) cs = some s' →
        (∃ c ∈ cs, c.isRfCw = true) →
        ∃ n : ℤ, s'.instruction_idx = some n ∧
          s'.filehandle = some (headerText ts :: cs.map lineOf) ∧
          n < cs.length) := by
  refine ⟨?_, ?_, ?_⟩
  · intro s c s' h hc
    have hidx := (runCall_ok_spec s c s' h).2.1
    rw [hc] at hidx
    simpa using hidx
  · intro s c s' h hc
    obtain ⟨-, hidx, hfh⟩ := runCall_ok_spec s c s' h
    rw [hc] at hidx
    exact ⟨by simpa using hidx, hfh⟩
  · intro fn ts cs s' h hex
    obtain ⟨fh, hidx, -⟩ :=
      runOk_spec cs _ s' [headerText ts] (create_file_filehandle fn ts) h
    rw [create_file_idx fn ts] at hidx
    have hcount : cs.countP (fun c => ! c.isRfCw) < cs.length := by
      rcases lt_or_eq_of_le (List.countP_le_length (fun c => ! c.isRfCw)
        (l := cs)) with hlt | heq
      · exact hlt
      · exfalso
        obtain ⟨c, hcmem, hcrf⟩ := hex
        have hall := List.countP_eq_length.mp heq c hcmem
        simp [hcrf] at hall
    refine ⟨(0 : ℤ) + (cs.countP (fun c => ! c.isRfCw) : ℤ),
      by simpa using hidx, by simpa using fh, ?_⟩
    omega

/-- Witness for C10: a successful run of `wait(9)` then
`rf_cw(True, 10, 0)` ends with the counter 1, strictly below its two
operation lines. -/
theorem rf_cw_skips_counter_app :
    ∃ n : ℤ,
      ((runOk ((RecipeFile.init "recipe.txt").create_file
            "2020-01-01 00:00:00 UTC")
          [Call.wait 9, Call.rf_cw true 10 0]).getD
        ((RecipeFile.init "recipe.txt").create_file
          "2020-01-01 00:00:00 UTC")).instruction_idx = some n ∧
      ((runOk ((RecipeFile.init "recipe.txt").create_file
            "2020-01-01 00:00:00 UTC")
          [Call.wait 9, Call.rf_cw true 10 0]).getD
        ((RecipeFile.init "recipe.txt").create_file
          "2020-01-01 00:00:00 UTC")).filehandle =
        some (headerText "2020-01-01 00:00:00 UTC" ::
          List.map lineOf [Call.wait 9, Call.rf_cw true 10 0]) ∧
      n < ([Call.wait 9, Call.rf_cw true 10 0] : List Call).length :=
  rf_cw_skips_counter.2.2 "recipe.txt" "2020-01-01 00:00:00 UTC"
    [Call.wait 9, Call.rf_cw true 10 0] _ (by decide) (by decide)

/-- C5: `pid_set` succeeds exactly when the upper-cased target is one of
the four PID names and the temperature is positive; `pid_set("LZ", 10)`
fails with the argument assert and leaves the state (hence the log length)
unchanged, `wait(-1)` fails because the time must be nonnegative, and
`rf_start_sweep(10, 5, 1, 1, 0)` fails at the `fmin < fmax` check. -/
theorem validation_rejections :
    (∀ (s : RecipeFile) (target : String) (temperature : ℚ),
        s.filehandle.isSome →
        ((s.pid_set target temperature).2 = none ↔
          (pyUpper target ∈ (["LA", "LB", "LCROSS", "LPOL"] : List String) ∧
            0 < temperature))) ∧
    runCall sampleState (.pid_set "LZ" 10) =
      (sampleState, some .invalidArgument) ∧
    runCall sampleState (.wait (-1)) =
      (sampleState, some .invalidArgument) ∧
    runCall sampleState (.rf_start_sweep 10 5 1 1 0) =
      (sampleState, some .invalidArgument) := by
  refine ⟨?_, by decide, by decide, by decide⟩
  intro s target temperature hs
  rcases hfh : s.filehandle with _ | ch
  · rw [hfh] at hs
    simp at hs
  · simp only [RecipeFile.pid_set, hfh]
    by_cases h1 :
        pyUpper target ∈ (["LA", "LB", "LCROSS", "LPOL"] : List String) <;>
      by_cases h2 : (0 : ℚ) < temperature <;>
      simp [h1, h2]

/-- Witness for C5: `pid_set("Lcross", 20)` succeeds on a created recipe
(case-insensitive target, positive temperature). -/
theorem validation_rejections_app :
    (sampleState.pid_set "Lcross" 20).2 = none :=
  (validation_rejections.1 sampleState "Lcross" 20 (by decide)).mpr
    (by decide)

/-- C6: `load_settings` succeeds exactly when the file name is non-empty
and `pol_id` lies in `[0, 48]`, appending one `LoadSettings` line carrying
the file name and the polarimeter id; both boundary ids 0 and 48 succeed
while 49 fails. -/
theorem load_settings_validation :
    (∀ (s : RecipeFile) (fn : String) (pid : Int), s.filehandle.isSome →
        ((s.load_settings fn pid).2 = none ↔
          fn ≠ "" ∧ 0 ≤ pid ∧ pid ≤ 48)) ∧
    (∀ (s : RecipeFile) (fn : String) (pid : Int) (ch : List String),
        s.filehandle = some ch → (s.load_settings fn pid).2 = none →
        (s.load_settings fn pid).1.filehandle =
          some (ch ++
            ["LoadSettings\t" ++ fn ++ ", " ++ toString pid ++ ";\n"])) ∧
    (sampleState.load_settings "cal.txt" 0).2 = none ∧
    (sampleState.load_settings "cal.txt" 48).2 = none ∧
    runCall sampleState (.load_settings "cal.txt" 49) =
      (sampleState, some .invalidArgument) := by
  refine ⟨?_, ?_, by decide, by decide, by decide⟩
  · intro s fn pid hs
    rcases hfh : s.filehandle with _ | ch
    · rw [hfh] at hs
      simp at hs
    · simp only [RecipeFile.load_settings, hfh]
      by_cases h1 : fn = "" <;>
        by_cases h2 : 0 ≤ pid ∧ pid ≤ 48 <;>
        simp [h1, h2, ge_iff_le]
  · intro s fn pid ch hch hok
    cases hp : s.load_settings fn pid with
    | mk s1 r =>
      rw [hp] at hok
      simp only at hok
      subst hok
      have h' : runCall s (.load_settings fn pid) = (s1, none) := by
        simpa [runCall] using hp
      obtain ⟨-, -, hfh'⟩ :=
        runCall_ok_spec s (.load_settings fn pid) s1 h'
      simpa [lineOf] using hfh' ch hch

/-- Witness for C6: on a created recipe, `load_settings("cal.txt", 3)`
succeeds and writes exactly its one `LoadSettings` line. -/
theorem load_settings_validation_app :
    (sampleState.load_settings "cal.txt" 3).2 = none ∧
    (sampleState.load_settings "cal.txt" 3).1.filehandle =
      some ([headerText "2020-01-01 00:00:00 UTC"] ++
        ["LoadSettings\t" ++ "cal.txt" ++ ", " ++ toString (3 : Int)
          ++ ";\n"]) :=
  ⟨(load_settings_validation.1 sampleState "cal.txt" 3 (by decide)).mpr
      (by decide),
    load_settings_validation.2.1 sampleState "cal.txt" 3
      [headerText "2020-01-01 00:00:00 UTC"] (by decide) (by decide)⟩

/-- C8: `sbs_on` and `sbs_off` delegate exactly to `sbs(True)` and
`sbs(False)`, which append one `Sbs` line whose single argument is the
literal token `ON` or `OFF` — never a Python boolean token. -/
theorem sbs_on_off_delegate :
    (∀ s : RecipeFile, s.sbs_on = s.sbs true ∧ s.sbs_off = s.sbs false) ∧
    (∀ (s : RecipeFile) (ch : List String), s.filehandle = some ch →
        (s.sbs true).1.filehandle = some (ch ++ ["Sbs\tON;\n"]) ∧
        (s.sbs false).1.filehandle = some (ch ++ ["Sbs\tOFF;\n"])) ∧
    strContains "Sbs\tON;\n" "ON" = true ∧
    strContains "Sbs\tOFF;\n" "OFF" = true ∧
    strContains "Sbs\tON;\n" "True" = false ∧
    strContains "Sbs\tOFF;\n" "False" = false := by
  refine ⟨fun s => ⟨rfl, rfl⟩, ?_, by decide, by decide, by decide,
    by decide⟩
  intro s ch hch
  constructor <;>
    simp [RecipeFile.sbs, RecipeFile.write, RecipeFile.incr, hch]

/-- Witness for C8: on a created recipe, `sbs_on` appends exactly the
`Sbs` line with the `ON` token. -/
theorem sbs_on_off_delegate_app :
    (sampleState.sbs true).1.filehandle =
      some ([headerText "2020-01-01 00:00:00 UTC"] ++ ["Sbs\tON;\n"]) :=
  (sbs_on_off_delegate.2.1 sampleState
    [headerText "2020-01-01 00:00:00 UTC"] (by decide)).1

/-- C1 (code bug): at the input of the unit test `test_basic_operations`
the code's serialized output carries the generation timestamp and the
`TESTSET:` marker but no `num_of_operations` and no `wait_duration_sec`
line at all, although the repository's own tests expect both summary
lines. -/
theorem header_lacks_summary_lines :
    strContains (((sampleState.record_start "TSYS").1.record_stop).1.output)
      "num_of_operations" = false ∧
    strContains (((sampleState.record_start "TSYS").1.record_stop).1.output)
      "wait_duration_sec" = false ∧
    strContains (((sampleState.record_start "TSYS").1.record_stop).1.output)
      "# Recipe generated on 2020-01-01 00:00:00 UTC" = true ∧
    strContains (((sampleState.record_start "TSYS").1.record_stop).1.output)
      "TESTSET:" = true := by decide

/-- C4 (code bug): at the failing input of the unit test, the code writes
a tab between the keyword and the arguments and renders `record_stop` as
`RecordStop;` with no separator, not the space-separated `RecordStart
TSYS;` / `RecordStop ;` lines that the spec and the repository's own test
expect. -/
theorem operation_lines_use_tab :
    (sampleState.record_start "TSYS").1.filehandle =
      some [headerText "2020-01-01 00:00:00 UTC",
        "RecordStart\tTSYS;\n"] ∧
    ((sampleState.record_start "TSYS").1.record_stop).1.filehandle =
      some [headerText "2020-01-01 00:00:00 UTC", "RecordStart\tTSYS;\n",
        "RecordStop;\n"] ∧
    "RecordStart\tTSYS;\n" ≠ "RecordStart TSYS;\n" ∧
    "RecordStop;\n" ≠ "RecordStop ;\n" := by decide

/-- C7: when a non-empty comment is supplied to the serializer, the output
contains the delimited comment block — `# BEGIN_COMMENT`, the comment
text, `# END_COMMENT` — immediately after the three header lines and
before the `TESTSET:` marker line; when no comment is supplied, no
comment block appears and the marker directly follows the header. -/
theorem comment_block_placement :
    (∀ (ts : String) (ops : List Call) (comment : String), comment ≠ "" →
        (write_to_file_lines ts ops comment)[3]? =
          some "# BEGIN_COMMENT" ∧
        (write_to_file_lines ts ops comment)[4]? = some comment ∧
        (write_to_file_lines ts ops comment)[5]? = some "# END_COMMENT" ∧
        (write_to_file_lines ts ops comment)[6]? = some "TESTSET:") ∧
    (∀ (ts : String) (ops : List Call),
        write_to_file_lines ts ops "" =
          ["# generation_time = \"" ++ ts ++ "\"",
           "# num_of_operations = " ++ toString ops.length,
           "# wait_duration_sec = " ++ pyNumStr (waitSum ops),
           "TESTSET:"] ++ ops.map specLine) := by
  refine ⟨?_, fun ts ops => rfl⟩
  intro ts ops comment hc
  have hw : write_to_file_lines ts ops comment =
      ["# generation_time = \"" ++ ts ++ "\"",
       "# num_of_operations = " ++ toString ops.length,
       "# wait_duration_sec = " ++ pyNumStr (waitSum ops)]
      ++ ["# BEGIN_COMMENT", comment, "# END_COMMENT"]
      ++ ["TESTSET:"] ++ ops.map specLine := by
    simp [write_to_file_lines, hc]
  exact ⟨by rw [hw]; simp, by rw [hw]; simp, by rw [hw]; simp,
    by rw [hw]; simp⟩

/-- Witness for C7: serializing `record_start("TSYS")` then
`record_stop()` with the comment `Hello, world!` places the comment block
right after the header, before the marker. -/
theorem comment_block_placement_app :
    (write_to_file_lines "2020-01-01T00:00:00Z"
        [Call.record_start "TSYS", Call.record_stop] "Hello, world!")[3]? =
      some "# BEGIN_COMMENT" ∧
    (write_to_file_lines "2020-01-01T00:00:00Z"
        [Call.record_start "TSYS", Call.record_stop] "Hello, world!")[4]? =
      some "Hello, world!" ∧
    (write_to_file_lines "2020-01-01T00:00:00Z"
        [Call.record_start "TSYS", Call.record_stop] "Hello, world!")[5]? =
      some "# END_COMMENT" ∧
    (write_to_file_lines "2020-01-01T00:00:00Z"
        [Call.record_start "TSYS", Call.record_stop] "Hello, world!")[6]? =
      some "TESTSET:" :=
  comment_block_placement.1 "2020-01-01T00:00:00Z"
    [Call.record_start "TSYS", Call.record_stop] "Hello, world!"
    (by decide)

end StripRecipes
